import Mathlib

/-!
Verification of the LogiScholar student-mark dashboard (`app.py`).

The embedding models the dataframe as a list of records, exact
arithmetic over `ℚ` in place of Python floats, and the Streamlit
script's control flow as total functions on explicit state.
-/

set_option maxHeartbeats 1000000

/-- One row of `university_core_data.csv` as loaded into the dataframe.
The `Attendance` field stands for the `Attendance_%` column. -/
structure Record where
  Register_No : Int
  Name : String
  Department : String
  Mark_1 : ℚ
  Mark_2 : ℚ
  Mark_3 : ℚ
  Attendance : ℚ
  Current_GPA : ℚ
deriving Repr, DecidableEq

/-- A cell value handed to the styling callback by `applymap`:
either a number or some other (string) value. -/
inductive CellValue where
  | num (q : ℚ)
  | str (s : String)
deriving Repr, DecidableEq

/-- The three qualitative forecast tiers of the predictor page. -/
inductive Tier where
  | Distinction
  | Standard
  | Intervention
deriving Repr, DecidableEq

/-- The three pages of the sidebar `option_menu`. -/
inductive Page where
  | dashboard
  | aiPredictor
  | search
deriving Repr, DecidableEq

/-- `get_data`: `pd.read_csv('university_core_data.csv')` guarded by
`try/except FileNotFoundError` with `st.error(...)` and `st.stop()`.
The file system is modelled by an `Option`: `none` is a missing file. -/
def get_data (file : Option (List Record)) : Except String (List Record) :=
  match file with
  | some t => Except.ok t
  | none => Except.error "Data file not found! Please run your Jupyter script to create 'university_core_data.csv' first."

/-- The static department-to-subjects mapping `dept_subjects`. -/
def dept_subjects : List (String × (String × String × String)) :=
  [("CSE", ("Data Science", "Operating Systems", "Cyber Security")),
   ("IT", ("Data Science", "Cloud Computing", "Web Frameworks")),
   ("ECE", ("VLSI Design", "Digital Electronics", "Signal Processing")),
   ("EEE", ("Power Systems", "Control Theory", "Electric Machines")),
   ("MECH", ("Thermodynamics", "Fluid Mechanics", "Robotics"))]

/-- Line 145: `prediction = ((s1*0.35) + (s2*0.25) + (s3*0.20) + (att*0.20)) / 10`. -/
def prediction (s1 s2 s3 att : ℚ) : ℚ :=
  ((s1 * 0.35) + (s2 * 0.25) + (s3 * 0.20) + (att * 0.20)) / 10

/-- Lines 150-155: the if/elif/else chain on `prediction` choosing the
success / info / error message. -/
def tierOf (p : ℚ) : Tier :=
  if p ≥ 8.5 then Tier.Distinction
  else if p ≥ 6.0 then Tier.Standard
  else Tier.Intervention

/-- Lines 168-178: `apply_performance_zones(val)` returns a CSS style
string for numeric cells and the empty string otherwise. -/
def apply_performance_zones (val : CellValue) : String :=
  match val with
  | CellValue.num v =>
    if v ≤ 45 then "background-color: #ffcccc; color: #990000;"
    else if v ≤ 60 then "background-color: #ffe5cc; color: #994c00;"
    else if v ≤ 80 then "background-color: #ffffcc; color: #808000;"
    else "background-color: #ccffcc; color: #006600;"
  | CellValue.str _ => ""

/-- The Red zone style returned for values `<= 45`. -/
def redStyle : String := "background-color: #ffcccc; color: #990000;"

/-- The Orange zone style returned for values in `(45, 60]`. -/
def orangeStyle : String := "background-color: #ffe5cc; color: #994c00;"

/-- The Yellow zone style returned for values in `(60, 80]`. -/
def yellowStyle : String := "background-color: #ffffcc; color: #808000;"

/-- The Green zone style returned for values `> 80`. -/
def greenStyle : String := "background-color: #ccffcc; color: #006600;"

/-- Line 163: `result = df[df['Register_No'].astype(str) == reg_no]` -
the sub-table of rows whose register number, as a string, equals the input. -/
def result (df : List Record) (reg_no : String) : List Record :=
  df.filter (fun r => toString r.Register_No == reg_no)

/-- Line 104: `df['Current_GPA'].mean()` numerator - the sum of the GPA column. -/
def sumGPA (df : List Record) : ℚ :=
  (df.map (fun r => r.Current_GPA)).sum

/-- Line 104: `df['Current_GPA'].mean()`, the campus average GPA KPI. -/
def meanGPA (df : List Record) : ℚ :=
  sumGPA df / (df.length : ℚ)

/-- Line 105: `df['Attendance_%'].mean()`. -/
def meanAttendance (df : List Record) : ℚ :=
  (df.map (fun r => r.Attendance)).sum / (df.length : ℚ)

/-- The distinct department keys produced by `df.groupby('Department')`. -/
def depts (df : List Record) : List String :=
  (df.map (fun r => r.Department)).dedup

/-- The group of rows for one department key under `df.groupby('Department')`. -/
def deptRows (df : List Record) (d : String) : List Record :=
  df.filter (fun r => r.Department == d)

/-- Line 119: `df.groupby('Department')['Current_GPA'].mean()` at key `d`. -/
def avg_gpa_dept (df : List Record) (d : String) : ℚ :=
  meanGPA (deptRows df d)

theorem prediction_def (s1 s2 s3 att : ℚ) :
    prediction s1 s2 s3 att = (0.35 * s1 + 0.25 * s2 + 0.20 * s3 + 0.20 * att) / 10 := by
  unfold prediction; ring

/-- Decimal text of a rational cell as it appears in the CSV export:
integers print without denominator, other rationals as `num/den`. -/
def ratCsv (q : ℚ) : String :=
  if q.den = 1 then toString q.num else toString q.num ++ "/" ++ toString q.den

/-- The textual fields of one exported row, in the column order of the
input schema. -/
def fieldStrs (r : Record) : List String :=
  [toString r.Register_No, r.Name, r.Department,
   ratCsv r.Mark_1, ratCsv r.Mark_2, ratCsv r.Mark_3,
   ratCsv r.Attendance, ratCsv r.Current_GPA]

/-- Whether a CSV field must be quoted (it contains a delimiter, a
quote or a line break), as in minimal CSV quoting. -/
def needsQuote (cs : List Char) : Bool :=
  cs.any (fun c => c == ',' || c == '"' || c == '\n' || c == '\r')

/-- Double every quote character of a quoted field's body. -/
def escChars : List Char → List Char
  | [] => []
  | c :: cs => if c = '"' then '"' :: '"' :: escChars cs else c :: escChars cs

/-- Serialize one CSV field: quote it iff it needs quoting. -/
def escField (f : List Char) : List Char :=
  if needsQuote f then '"' :: (escChars f ++ ['"']) else f

/-- Join serialized fields of one row with the comma delimiter. -/
def rowOfFields : List (List Char) → List Char
  | [] => []
  | [f] => escField f
  | f :: fs => escField f ++ ',' :: rowOfFields fs

/-- The exported text of one data row. -/
def rowLine (r : Record) : String :=
  String.mk (rowOfFields ((fieldStrs r).map String.data))

/-- The header line written by `to_csv(index=False)`. -/
def headerLine : String :=
  "Register_No,Name,Department,Mark_1,Mark_2,Mark_3,Attendance_%,Current_GPA"

/-- Line 190: `result.to_csv(index=False)` - header line then one line
per row, each line newline-terminated. -/
def to_csv (rows : List Record) : String :=
  headerLine ++ "\n" ++ String.join (rows.map (fun r => rowLine r ++ "\n"))

/-- Parser mode: outside quotes, inside quotes, or just after a quote
character seen inside a quoted field (which is either the closing
quote or the first half of an escaped doubled quote). -/
inductive PMode where
  | plain
  | quoted
  | afterQuote
deriving Repr, DecidableEq

/-- A CSV field parser over characters: state is the quoting mode and
the reversed accumulator of the current field. A doubled quote inside
a quoted field yields a literal quote. -/
def parseChars : List Char → PMode → List Char → List (List Char)
  | [], _, acc => [acc.reverse]
  | c :: cs, PMode.plain, acc =>
    if c = ',' then acc.reverse :: parseChars cs PMode.plain []
    else if c = '"' then parseChars cs PMode.quoted acc
    else parseChars cs PMode.plain (c :: acc)
  | c :: cs, PMode.quoted, acc =>
    if c = '"' then parseChars cs PMode.afterQuote acc
    else parseChars cs PMode.quoted (c :: acc)
  | c :: cs, PMode.afterQuote, acc =>
    if c = '"' then parseChars cs PMode.quoted ('"' :: acc)
    else if c = ',' then acc.reverse :: parseChars cs PMode.plain []
    else parseChars cs PMode.plain (c :: acc)

/-- Re-parse one delimited line into its list of textual fields. -/
def parseLine (s : String) : List String :=
  (parseChars s.data PMode.plain []).map String.mk

/-- The downloadable artifact built by `st.download_button` (lines 192-198). -/
structure Download where
  fileName : String
  mime : String
  data : ByteArray

/-- The outcome of the Search page for one rendering pass. -/
inductive SearchOut where
  | blank
  | notFound (msg : String)
  | found (profile : List Record) (download : Download)

/-- Lines 160-202: the Search page. An empty input renders nothing
(`if reg_no:`); otherwise the table is filtered; an empty result shows
an error message, a non-empty result shows the profile and offers
`csv_data = result.to_csv(index=False).encode('utf-8')` for download
under `Student_Report_<reg_no>.csv` with MIME `text/csv`. -/
def searchView (df : List Record) (reg_no : String) : SearchOut :=
  if reg_no = "" then SearchOut.blank
  else if (result df reg_no).isEmpty then
    SearchOut.notFound "No record found with that Register ID."
  else
    SearchOut.found (result df reg_no)
      { fileName := "Student_Report_" ++ reg_no ++ ".csv"
        mime := "text/csv"
        data := (to_csv (result df reg_no)).toUTF8 }

/-- What one rendering pass of a page produces. -/
inductive ViewOut where
  | dashboardOut (totalStudents : Nat) (campusAvgGPA : ℚ) (avgAttendance : ℚ)
      (retentionRate : String) (avgByDept : List (String × ℚ))
  | predictorOut (score : ℚ) (tier : Tier)
  | searchOut (s : SearchOut)

/-- The widget state of one interaction: the four predictor sliders
and the search text input. -/
structure UserInput where
  s1 : ℚ
  s2 : ℚ
  s3 : ℚ
  att : ℚ
  reg_no : String

/-- Render the page selected in the sidebar from the loaded table. -/
def renderPage (df : List Record) (p : Page) (u : UserInput) : ViewOut :=
  match p with
  | Page.dashboard =>
    ViewOut.dashboardOut df.length (meanGPA df) (meanAttendance df) "98.2%"
      ((depts df).map (fun d => (d, avg_gpa_dept df d)))
  | Page.aiPredictor =>
    ViewOut.predictorOut (prediction u.s1 u.s2 u.s3 u.att)
      (tierOf (prediction u.s1 u.s2 u.s3 u.att))
  | Page.search => ViewOut.searchOut (searchView df u.reg_no)

/-- The result of one top-to-bottom run of the script: either
`st.stop()` was hit with an error message on screen, or a view rendered. -/
inductive RenderOut where
  | halted (msg : String)
  | rendered (v : ViewOut)

/-- One full run of the script: `df = get_data()` and then the page
dispatch; a missing file stops the run before any view renders. -/
def runApp (file : Option (List Record)) (p : Page) (u : UserInput) : RenderOut :=
  match get_data file with
  | Except.error msg => RenderOut.halted msg
  | Except.ok df => RenderOut.rendered (renderPage df p u)

/-! ### Helper lemmas: CSV serialization round trip -/

theorem noSpecial_of_not_needsQuote {f : List Char} (h : needsQuote f = false) :
    ∀ c ∈ f, c ≠ ',' ∧ c ≠ '"' := by
  intro c hc
  unfold needsQuote at h
  rw [List.any_eq_false] at h
  have := h c hc
  simp only [Bool.or_eq_true, beq_iff_eq, not_or] at this
  tauto

theorem parse_plain_end (f : List Char) (acc : List Char)
    (h : ∀ c ∈ f, c ≠ ',' ∧ c ≠ '"') :
    parseChars f PMode.plain acc = [acc.reverse ++ f] := by
  induction f generalizing acc with
  | nil => simp [parseChars]
  | cons c f ih =>
    obtain ⟨h1, h2⟩ := h c (List.mem_cons_self c f)
    rw [parseChars, if_neg h1, if_neg h2, ih _ (fun d hd => h d (List.mem_cons_of_mem c hd))]
    simp

theorem parse_plain_comma (f rest acc : List Char)
    (h : ∀ c ∈ f, c ≠ ',' ∧ c ≠ '"') :
    parseChars (f ++ ',' :: rest) PMode.plain acc
      = (acc.reverse ++ f) :: parseChars rest PMode.plain [] := by
  induction f generalizing acc with
  | nil => simp [parseChars]
  | cons c f ih =>
    obtain ⟨h1, h2⟩ := h c (List.mem_cons_self c f)
    rw [List.cons_append, parseChars, if_neg h1, if_neg h2,
      ih _ (fun d hd => h d (List.mem_cons_of_mem c hd))]
    simp

theorem parse_escChars (f : List Char) (rest acc : List Char) :
    parseChars (escChars f ++ rest) PMode.quoted acc
      = parseChars rest PMode.quoted (f.reverse ++ acc) := by
  induction f generalizing acc with
  | nil => simp [escChars]
  | cons c f ih =>
    by_cases hc : c = '"'
    · subst hc
      rw [escChars, if_pos rfl]
      rw [List.cons_append, List.cons_append, parseChars, if_pos rfl,
        parseChars, if_pos rfl, ih]
      simp
    · rw [escChars, if_neg hc, List.cons_append, parseChars, if_neg hc, ih]
      simp

theorem parse_field_end (f : List Char) :
    parseChars (escField f) PMode.plain [] = [f] := by
  unfold escField
  by_cases h : needsQuote f
  · rw [if_pos h, parseChars]
    rw [if_neg (by decide), if_pos rfl, parse_escChars]
    simp [parseChars]
  · rw [if_neg h]
    have := parse_plain_end f [] (noSpecial_of_not_needsQuote (Bool.not_eq_true _ ▸ h))
    simpa using this

theorem parse_field_comma (f rest : List Char) :
    parseChars (escField f ++ ',' :: rest) PMode.plain []
      = f :: parseChars rest PMode.plain [] := by
  unfold escField
  by_cases h : needsQuote f
  · rw [if_pos h, List.cons_append, parseChars, if_neg (by decide), if_pos rfl,
      List.append_assoc, List.singleton_append, parse_escChars]
    rw [parseChars, if_pos rfl, parseChars, if_neg (by decide), if_pos rfl]
    simp
  · rw [if_neg h]
    have := parse_plain_comma f rest []
      (noSpecial_of_not_needsQuote (Bool.not_eq_true _ ▸ h))
    simpa using this

theorem parse_rowOfFields (fs : List (List Char)) (h : fs ≠ []) :
    parseChars (rowOfFields fs) PMode.plain [] = fs := by
  induction fs with
  | nil => exact absurd rfl h
  | cons f fs ih =>
    cases fs with
    | nil => rw [rowOfFields]; exact parse_field_end f
    | cons g gs =>
      rw [rowOfFields, parse_field_comma, ih (List.cons_ne_nil g gs)]
      exact List.cons_ne_nil g gs

/-! ### Helper lemmas: grouped means and lookup -/

theorem sum_map_ite_eq (ks : List String) (d : String) (g : ℚ)
    (hnd : ks.Nodup) (hd : d ∈ ks) :
    (ks.map (fun k => if d = k then g else 0)).sum = g := by
  induction ks with
  | nil => cases hd
  | cons k ks ih =>
    rw [List.map_cons, List.sum_cons]
    rcases List.mem_cons.mp hd with h | h
    · subst h
      rw [if_pos rfl]
      have hz : (ks.map (fun k => if d = k then g else 0)).sum = 0 := by
        apply List.sum_eq_zero
        intro x hx
        obtain ⟨k', hk', hx'⟩ := List.mem_map.mp hx
        have : d ≠ k' := fun he => (List.nodup_cons.mp hnd).1 (he ▸ hk')
        rw [if_neg this] at hx'
        exact hx'.symm
      rw [hz, add_zero]
    · have hne : d ≠ k := fun he => (List.nodup_cons.mp hnd).1 (he ▸ h)
      rw [if_neg hne, ih (List.nodup_cons.mp hnd).2 h, zero_add]

theorem sumGPA_deptRows_cons (r : Record) (rs : List Record) (d : String) :
    sumGPA (deptRows (r :: rs) d)
      = (if r.Department = d then r.Current_GPA else 0) + sumGPA (deptRows rs d) := by
  unfold deptRows sumGPA
  rw [List.filter_cons]
  by_cases h : r.Department = d
  · simp [h]
  · simp [h]

theorem sum_sumGPA_partition (df : List Record) (ks : List String)
    (hnd : ks.Nodup) (hcov : ∀ r ∈ df, r.Department ∈ ks) :
    (ks.map (fun d => sumGPA (deptRows df d))).sum = sumGPA df := by
  induction df with
  | nil =>
    have : ∀ d ∈ ks, sumGPA (deptRows [] d) = 0 := by
      intro d _; simp [deptRows, sumGPA]
    rw [List.sum_eq_zero]
    · simp [sumGPA]
    · intro x hx
      obtain ⟨d, hd, hx'⟩ := List.mem_map.mp hx
      rw [← hx']; exact this d hd
  | cons r rs ih =>
    have hcov' : ∀ x ∈ rs, x.Department ∈ ks :=
      fun x hx => hcov x (List.mem_cons_of_mem r hx)
    have hmap : ks.map (fun d => sumGPA (deptRows (r :: rs) d))
        = ks.map (fun d => (if r.Department = d then r.Current_GPA else 0)
            + sumGPA (deptRows rs d)) :=
      List.map_congr_left (fun d _ => sumGPA_deptRows_cons r rs d)
    rw [hmap, List.sum_map_add, ih hcov',
      sum_map_ite_eq ks r.Department r.Current_GPA hnd (hcov r (List.mem_cons_self r rs))]
    simp [sumGPA]

theorem deptRows_ne_nil (df : List Record) (d : String) (hd : d ∈ depts df) :
    deptRows df d ≠ [] := by
  unfold depts at hd
  rw [List.mem_dedup] at hd
  obtain ⟨r, hr, hrd⟩ := List.mem_map.mp hd
  intro hnil
  have : r ∈ deptRows df d := by
    unfold deptRows
    rw [List.mem_filter]
    exact ⟨hr, by simp [hrd]⟩
  rw [hnil] at this
  cases this

theorem result_cons (r : Record) (rs : List Record) (id : String) :
    result (r :: rs) id
      = if toString r.Register_No = id then r :: result rs id else result rs id := by
  unfold result
  rw [List.filter_cons]
  by_cases h : toString r.Register_No = id
  · simp [h]
  · simp [h]

theorem result_eq_find_of_nodup (df : List Record) (id : String)
    (h : (df.map (fun r => toString r.Register_No)).Nodup) :
    result df id = (df.find? (fun r => toString r.Register_No == id)).toList := by
  induction df with
  | nil => simp [result]
  | cons r rs ih =>
    rw [List.map_cons, List.nodup_cons] at h
    by_cases hr : toString r.Register_No = id
    · rw [result_cons, if_pos hr, List.find?_cons_of_pos _ (by simp [hr])]
      have hz : result rs id = [] := by
        unfold result
        rw [List.filter_eq_nil_iff]
        intro x hx
        simp only [beq_iff_eq]
        intro he
        exact h.1 (by rw [← hr] at he; exact he ▸ List.mem_map_of_mem _ hx)
      rw [hz]
      rfl
    · rw [result_cons, if_neg hr, List.find?_cons_of_neg _ (by simp [hr]), ih h.2]

theorem result_empty_iff (df : List Record) (id : String) :
    result df id = [] ↔ ∀ r ∈ df, toString r.Register_No ≠ id := by
  unfold result
  rw [List.filter_eq_nil_iff]
  simp

/-! ### Claim theorems -/

/-- C1: the forecast score equals `(0.35*s1 + 0.25*s2 + 0.20*s3 + 0.20*att) / 10`
for every input quadruple; in particular `prediction 100 100 100 100 = 10`
and `prediction 0 0 0 0 = 0`. -/
theorem C1_forecast_formula :
    (∀ s1 s2 s3 att : ℚ,
      prediction s1 s2 s3 att = (0.35 * s1 + 0.25 * s2 + 0.20 * s3 + 0.20 * att) / 10) ∧
    prediction 100 100 100 100 = 10 ∧ prediction 0 0 0 0 = 0 :=
  ⟨prediction_def, by norm_num [prediction], by norm_num [prediction]⟩

/-- The styling callback at a numeric cell, written with the four named
zone styles. -/
theorem apz_num (v : ℚ) : apply_performance_zones (CellValue.num v)
    = if v ≤ 45 then redStyle else if v ≤ 60 then orangeStyle
      else if v ≤ 80 then yellowStyle else greenStyle := rfl

/-- C2: the tier is Distinction iff the score is at least 8.5, Standard iff
it lies in [6.0, 8.5), Intervention iff it is below 6.0; the thresholds
6.0 and 8.5 classify as Standard and Distinction respectively. -/
theorem C2_tier_boundaries :
    (∀ x : ℚ,
      (tierOf x = Tier.Distinction ↔ 8.5 ≤ x) ∧
      (tierOf x = Tier.Standard ↔ 6.0 ≤ x ∧ x < 8.5) ∧
      (tierOf x = Tier.Intervention ↔ x < 6.0)) ∧
    tierOf 6.0 = Tier.Standard ∧ tierOf 8.5 = Tier.Distinction := by
  refine ⟨fun x => ?_, by norm_num [tierOf], by norm_num [tierOf]⟩
  rcases le_or_lt 8.5 x with h1 | h1
  · have ht : tierOf x = Tier.Distinction := by
      unfold tierOf; rw [if_pos (show x ≥ 8.5 from h1)]
    rw [ht]
    exact ⟨⟨fun _ => h1, fun _ => rfl⟩,
      ⟨fun hh => Tier.noConfusion hh, fun hh => absurd hh.2 (not_lt.mpr h1)⟩,
      ⟨fun hh => Tier.noConfusion hh, fun hh => absurd hh (not_lt.mpr (by linarith))⟩⟩
  · rcases le_or_lt 6.0 x with h2 | h2
    · have ht : tierOf x = Tier.Standard := by
        unfold tierOf
        rw [if_neg (show ¬(x ≥ 8.5) from not_le.mpr h1), if_pos (show x ≥ 6.0 from h2)]
      rw [ht]
      exact ⟨⟨fun hh => Tier.noConfusion hh, fun hh => absurd h1 (not_lt.mpr hh)⟩,
        ⟨fun _ => ⟨h2, h1⟩, fun _ => rfl⟩,
        ⟨fun hh => Tier.noConfusion hh, fun hh => absurd h2 (not_le.mpr hh)⟩⟩
    · have ht : tierOf x = Tier.Intervention := by
        unfold tierOf
        rw [if_neg (show ¬(x ≥ 8.5) from not_le.mpr h1),
          if_neg (show ¬(x ≥ 6.0) from not_le.mpr h2)]
      rw [ht]
      exact ⟨⟨fun hh => Tier.noConfusion hh, fun hh => absurd hh (not_le.mpr (by linarith))⟩,
        ⟨fun hh => Tier.noConfusion hh, fun hh => absurd hh.1 (not_le.mpr h2)⟩,
        ⟨fun _ => h2, fun _ => rfl⟩⟩

/-- C4: for numeric values the zone is Red iff `v <= 45`, Orange iff
`45 < v <= 60`, Yellow iff `60 < v <= 80`, Green iff `v > 80`; concretely,
45 → Red, 46 and 60 → Orange, 61 and 80 → Yellow, 81 → Green. -/
theorem C4_zone_thresholds :
    (∀ v : ℚ,
      (apply_performance_zones (CellValue.num v) = redStyle ↔ v ≤ 45) ∧
      (apply_performance_zones (CellValue.num v) = orangeStyle ↔ 45 < v ∧ v ≤ 60) ∧
      (apply_performance_zones (CellValue.num v) = yellowStyle ↔ 60 < v ∧ v ≤ 80) ∧
      (apply_performance_zones (CellValue.num v) = greenStyle ↔ 80 < v)) ∧
    apply_performance_zones (CellValue.num 45) = redStyle ∧
    apply_performance_zones (CellValue.num 46) = orangeStyle ∧
    apply_performance_zones (CellValue.num 60) = orangeStyle ∧
    apply_performance_zones (CellValue.num 61) = yellowStyle ∧
    apply_performance_zones (CellValue.num 80) = yellowStyle ∧
    apply_performance_zones (CellValue.num 81) = greenStyle := by
  refine ⟨fun v => ?_, by rw [apz_num]; norm_num, by rw [apz_num]; norm_num,
    by rw [apz_num]; norm_num, by rw [apz_num]; norm_num,
    by rw [apz_num]; norm_num, by rw [apz_num]; norm_num⟩
  rw [apz_num]
  rcases le_or_lt v 45 with h1 | h1
  · rw [if_pos h1]
    exact ⟨⟨fun _ => h1, fun _ => rfl⟩,
      ⟨fun hh => absurd hh (by decide), fun hh => absurd hh.1 (not_lt.mpr h1)⟩,
      ⟨fun hh => absurd hh (by decide), fun hh => absurd hh.1 (not_lt.mpr (by linarith))⟩,
      ⟨fun hh => absurd hh (by decide), fun hh => absurd hh (not_lt.mpr (by linarith))⟩⟩
  · rcases le_or_lt v 60 with h2 | h2
    · rw [if_neg (not_le.mpr h1), if_pos h2]
      exact ⟨⟨fun hh => absurd hh (by decide), fun hh => absurd hh (not_le.mpr h1)⟩,
        ⟨fun _ => ⟨h1, h2⟩, fun _ => rfl⟩,
        ⟨fun hh => absurd hh (by decide), fun hh => absurd hh.1 (not_lt.mpr h2)⟩,
        ⟨fun hh => absurd hh (by decide), fun hh => absurd hh (not_lt.mpr (by linarith))⟩⟩
    · rcases le_or_lt v 80 with h3 | h3
      · rw [if_neg (not_le.mpr h1), if_neg (not_le.mpr h2), if_pos h3]
        exact ⟨⟨fun hh => absurd hh (by decide), fun hh => absurd hh (not_le.mpr (by linarith))⟩,
          ⟨fun hh => absurd hh (by decide), fun hh => absurd hh.2 (not_le.mpr h2)⟩,
          ⟨fun _ => ⟨h2, h3⟩, fun _ => rfl⟩,
          ⟨fun hh => absurd hh (by decide), fun hh => absurd hh (not_lt.mpr h3)⟩⟩
      · rw [if_neg (not_le.mpr h1), if_neg (not_le.mpr h2), if_neg (not_le.mpr h3)]
        exact ⟨⟨fun hh => absurd hh (by decide), fun hh => absurd hh (not_le.mpr (by linarith))⟩,
          ⟨fun hh => absurd hh (by decide), fun hh => absurd hh.2 (not_le.mpr (by linarith))⟩,
          ⟨fun hh => absurd hh (by decide), fun hh => absurd hh.2 (not_le.mpr h3)⟩,
          ⟨fun _ => h3, fun _ => rfl⟩⟩

/-- C5: a missing input file halts the whole run with the user-visible
regeneration message before any view renders, and with the file present
every page renders a view - no other run is halted. -/
theorem C5_missing_file_fatal :
    (∀ (p : Page) (u : UserInput),
      runApp none p u = RenderOut.halted
        "Data file not found! Please run your Jupyter script to create 'university_core_data.csv' first.") ∧
    (∀ (df : List Record) (p : Page) (u : UserInput),
      ∃ v, runApp (some df) p u = RenderOut.rendered v) :=
  ⟨fun _ _ => rfl, fun _ _ _ => ⟨_, rfl⟩⟩

/-- C8: with each slider input in [0,100] the forecast score lies in [0,10]
and the normalized progress value score/10 lies in [0,1]. -/
theorem C8_forecast_range (s1 s2 s3 att : ℚ)
    (h1 : 0 ≤ s1) (h1' : s1 ≤ 100) (h2 : 0 ≤ s2) (h2' : s2 ≤ 100)
    (h3 : 0 ≤ s3) (h3' : s3 ≤ 100) (h4 : 0 ≤ att) (h4' : att ≤ 100) :
    0 ≤ prediction s1 s2 s3 att ∧ prediction s1 s2 s3 att ≤ 10 ∧
    0 ≤ prediction s1 s2 s3 att / 10 ∧ prediction s1 s2 s3 att / 10 ≤ 1 := by
  unfold prediction
  refine ⟨by linarith, by linarith, by linarith, by linarith⟩

/-- Witness for C8 at the default slider values (80, 75, 85, 90). -/
theorem C8_forecast_range_witness :
    ((0:ℚ) ≤ 80 ∧ (80:ℚ) ≤ 100) ∧
    (0 ≤ prediction 80 75 85 90 ∧ prediction 80 75 85 90 ≤ 10 ∧
     0 ≤ prediction 80 75 85 90 / 10 ∧ prediction 80 75 85 90 / 10 ≤ 1) :=
  ⟨⟨by norm_num, by norm_num⟩,
   C8_forecast_range 80 75 85 90 (by norm_num) (by norm_num) (by norm_num) (by norm_num)
     (by norm_num) (by norm_num) (by norm_num) (by norm_num)⟩

/-- C10: the styling callback is total - non-numeric cells get the empty
style, numeric cells get exactly one of the four pairwise-distinct zone
styles, never the empty style. -/
theorem C10_zone_totality :
    (∀ s : String, apply_performance_zones (CellValue.str s) = "") ∧
    (∀ q : ℚ, apply_performance_zones (CellValue.num q)
        ∈ [redStyle, orangeStyle, yellowStyle, greenStyle] ∧
      apply_performance_zones (CellValue.num q) ≠ "") ∧
    [redStyle, orangeStyle, yellowStyle, greenStyle].Nodup := by
  refine ⟨fun s => rfl, fun q => ?_, by decide⟩
  rw [apz_num]
  split_ifs <;> exact (by decide)

/-- `to_csv` of a single-row table is the header line plus that row's line. -/
theorem to_csv_singleton (r : Record) :
    to_csv [r] = headerLine ++ "\n" ++ (rowLine r ++ "\n") := rfl

/-- A concrete row with register number 12345, used by witnesses. -/
def cA : Record := ⟨12345, "Asha", "CSE", 67, 80, 45, 90, 8⟩

/-- A concrete row with register number 10002, used by witnesses. -/
def cB : Record := ⟨10002, "Ravi", "IT", 55, 60, 70, 80, 6⟩

/-- A concrete row with register number 10003, used by witnesses. -/
def cC : Record := ⟨10003, "Mei", "CSE", 80, 85, 90, 95, 9⟩

/-- First row of a duplicate-register pair. -/
def dupA : Record := ⟨12345, "First", "CSE", 50, 50, 50, 50, 5⟩

/-- Second row of a duplicate-register pair. -/
def dupB : Record := ⟨12345, "Second", "IT", 60, 60, 60, 60, 6⟩

/-- C3 counterexample: on a table with two rows sharing Register_No 12345
the filter returns both matching rows - neither the first row alone nor
empty - so "returns the first matching row or empty" fails for this table. -/
theorem C3_counterexample :
    result [dupA, dupB] "12345" = [dupA, dupB] ∧
    result [dupA, dupB] "12345" ≠ [dupA] ∧
    result [dupA, dupB] "12345" ≠ [] :=
  ⟨by decide, by decide, by decide⟩

/-- C3 (amended): the lookup returns the sub-table of all rows whose
textual Register_No equals the query; when the textual register numbers
are pairwise distinct (the table invariant) this is exactly the first
match, and it is empty iff no row matches. -/
theorem C3_lookup_first (df : List Record) (id : String)
    (h : (df.map (fun r => toString r.Register_No)).Nodup) :
    result df id = (df.find? (fun r => toString r.Register_No == id)).toList ∧
    (result df id = [] ↔ ∀ r ∈ df, toString r.Register_No ≠ id) :=
  ⟨result_eq_find_of_nodup df id h, result_empty_iff df id⟩

/-- Witness for C3 (amended) on a concrete two-row table. -/
theorem C3_lookup_first_witness :
    result [cA, cB] "12345"
        = (([cA, cB] : List Record).find? (fun r => toString r.Register_No == "12345")).toList ∧
    (result [cA, cB] "12345" = [] ↔ ∀ r ∈ [cA, cB], toString r.Register_No ≠ "12345") :=
  C3_lookup_first [cA, cB] "12345" (by decide)

/-- C6: per-department mean GPAs weighted by department record counts and
divided by the total count give the campus mean GPA, exactly over ℚ. -/
theorem C6_aggregate_consistency (df : List Record) (h : df ≠ []) :
    ((depts df).map (fun d => avg_gpa_dept df d * ((deptRows df d).length : ℚ))).sum
      / (df.length : ℚ) = meanGPA df := by
  have hnd : (depts df).Nodup := List.nodup_dedup _
  have hcov : ∀ r ∈ df, r.Department ∈ depts df := by
    intro r hr
    unfold depts
    rw [List.mem_dedup]
    exact List.mem_map_of_mem _ hr
  have hmap : (depts df).map (fun d => avg_gpa_dept df d * ((deptRows df d).length : ℚ))
      = (depts df).map (fun d => sumGPA (deptRows df d)) := by
    apply List.map_congr_left
    intro d hd
    have hne : deptRows df d ≠ [] := deptRows_ne_nil df d hd
    have hlen : ((deptRows df d).length : ℚ) ≠ 0 :=
      Nat.cast_ne_zero.mpr (fun h0 => hne (List.length_eq_zero.mp h0))
    unfold avg_gpa_dept meanGPA
    exact div_mul_cancel₀ _ hlen
  rw [hmap, sum_sumGPA_partition df (depts df) hnd hcov]
  rfl

/-- Witness for C6 on a concrete three-row table over two departments. -/
theorem C6_aggregate_consistency_witness :
    ([cA, cB, cC] : List Record) ≠ [] ∧
    ((depts [cA, cB, cC]).map
        (fun d => avg_gpa_dept [cA, cB, cC] d * ((deptRows [cA, cB, cC] d).length : ℚ))).sum
      / (([cA, cB, cC] : List Record).length : ℚ) = meanGPA [cA, cB, cC] :=
  ⟨by simp, C6_aggregate_consistency [cA, cB, cC] (by simp)⟩

/-- C7: serializing a record to its delimited export row and re-parsing
the text yields exactly the record's fields, for every record - including
names containing delimiters, quotes or line breaks, which minimal CSV
quoting protects. -/
theorem C7_export_roundtrip (r : Record) :
    parseLine (rowLine r) = fieldStrs r := by
  have h1 : parseLine (rowLine r)
      = (parseChars (rowOfFields ((fieldStrs r).map String.data)) PMode.plain []).map
          String.mk := rfl
  have h2 : (fieldStrs r).map (String.mk ∘ String.data) = (fieldStrs r).map id :=
    List.map_congr_left fun s _ => rfl
  rw [h1, parse_rowOfFields _ (by simp [fieldStrs]), List.map_map, h2, List.map_id]

/-- C9: a successful lookup offers a download whose filename is
`Student_Report_<id>.csv` built from the looked-up identifier, whose MIME
type is `text/csv`, and whose data is the UTF-8 encoding of the header
schema line plus the single matched row's line. -/
theorem C9_export_artifact (df : List Record) (id : String) (r : Record)
    (hid : id ≠ "") (hr : result df id = [r]) :
    searchView df id = SearchOut.found [r]
      { fileName := "Student_Report_" ++ id ++ ".csv"
        mime := "text/csv"
        data := (headerLine ++ "\n" ++ (rowLine r ++ "\n")).toUTF8 } := by
  unfold searchView
  rw [if_neg hid, hr]
  simp [to_csv_singleton]

/-- Witness for C9: looking up "12345" in a concrete two-row table. -/
theorem C9_export_artifact_witness :
    ("12345" ≠ "" ∧ result [cA, cB] "12345" = [cA]) ∧
    searchView [cA, cB] "12345" = SearchOut.found [cA]
      { fileName := "Student_Report_" ++ "12345" ++ ".csv"
        mime := "text/csv"
        data := (headerLine ++ "\n" ++ (rowLine cA ++ "\n")).toUTF8 } :=
  ⟨⟨by decide, by decide⟩,
   C9_export_artifact [cA, cB] "12345" cA (by decide) (by decide)⟩
